import Mathlib

/-!
Verification of the Si4713 FM-transmitter driver (package `radio`).

The repository holds two implementations of the same driver:
* `src/radio/radio.go` — shared mutable command-template buffers, mutated in
  place before each send (modelled below in namespace `RadioGo`);
* `src/unnamed/part_001` — fresh immutable frame per call (namespace `PartOne`).

The bus transport is modelled by a finite script of responses, consumed one
per bus call.  Every driver function is embedded as a state-passing function
that returns the outcome (`none` when the script is exhausted or answers with
a response of the wrong kind, i.e. the run is stuck), the trace of requests
issued to the bus, and the unconsumed remainder of the script.  Machine
integers (`uint8` / `uint16`) are modelled as `Nat` with explicit `% 2 ^ 8`
truncation where the Go code converts.
-/

namespace Si4713

/-- Command opcode constants, from the `const` block of the source. -/
def STATUS_CTS : Nat := 0x80

def CMD_POWER_UP : Nat := 0x01

def CMD_GET_REV : Nat := 0x10

def CMD_POWER_DOWN : Nat := 0x11

def CMD_SET_PROPERTY : Nat := 0x12

def CMD_GET_INT_STATUS : Nat := 0x14

def CMD_TX_TUNE_FREQ : Nat := 0x30

def CMD_TX_TUNE_POWER : Nat := 0x31

def CMD_TX_TUNE_MEASURE : Nat := 0x32

def CMD_TX_TUNE_STATUS : Nat := 0x33

def CMD_TX_ASQ_STATUS : Nat := 0x34

def CMD_TX_RDS_BUFF : Nat := 0x35

def CMD_TX_RDS_PS : Nat := 0x36

def CMD_GPO_CTL : Nat := 0x80

def CMD_GPO_SET : Nat := 0x81

/-- Property addresses used by the driver, from the `const` block of the source. -/
def PROP_REFCLK_FREQ : Nat := 0x0201

def PROP_TX_COMPONENT_ENABLE : Nat := 0x2100

def PROP_TX_AUDIO_DEVIATION : Nat := 0x2101

def PROP_TX_RDS_DEVIATION : Nat := 0x2103

def PROP_TX_PREEMPHASIS : Nat := 0x2106

def PROP_TX_ACOMP_ENABLE : Nat := 0x2200

def PROP_TX_ACOMP_GAIN : Nat := 0x2204

def PROP_TX_RDS_INTERRUPT_SOURCE : Nat := 0x2C00

def PROP_TX_RDS_PI : Nat := 0x2C01

def PROP_TX_RDS_PS_MIX : Nat := 0x2C02

def PROP_TX_RDS_PS_MISC : Nat := 0x2C03

def PROP_TX_RDS_PS_REPEAT_COUNT : Nat := 0x2C04

def PROP_TX_RDS_MESSAGE_COUNT : Nat := 0x2C05

def PROP_TX_RDS_PS_AF : Nat := 0x2C06

def PROP_TX_RDS_FIFO_SIZE : Nat := 0x2C07

/-- A request issued by the driver to the bus transport (`i2c.Connection`
methods `Write`, `WriteByte`, `ReadByte`, `Read`, plus the reset pin's
`DigitalWrite` and the connector's `GetConnection`). -/
inductive Req where
  | write (bytes : List Nat)
  | writeByte (b : Nat)
  | readByte
  | readBuf (n : Nat)
  | digitalWrite (pin : String) (v : Nat)
  | getConn
deriving DecidableEq

/-- A scripted transport response; one response is consumed per bus call.
`bufOk count bytes` answers a buffer read: `count` is the returned byte
count and `bytes` the data placed at the front of the caller's buffer. -/
inductive Resp where
  | wOk
  | wErr
  | rOk (b : Nat)
  | rErr
  | bufOk (count : Nat) (bytes : List Nat)
  | bufErr
  | dOk
  | dErr
  | cOk
  | cErr
deriving DecidableEq

/-- Errors surfaced by the driver.  `shortRead expected actual` records the
two numbers formatted into `buffRead`'s error message (the Go code formats
`size` and `len(values)`).  `configErr` and `panicked` carry the Go message. -/
inductive Err where
  | busErr
  | shortRead (expected actual : Nat)
  | notFound
  | forcedStop
  | noDigitalWriter
  | configErr (msg : String)
  | panicked (msg : String)
deriving DecidableEq

/-- The driver monad: a run consumes a response script and produces an
outcome (`none` = stuck, the script ran out), the request trace, and the
remaining script. -/
abbrev M (α : Type) := List Resp → Option (Except Err α) × List Req × List Resp

def M.pure (a : α) : M α := fun s => (some (.ok a), [], s)

def M.bind (x : M α) (f : α → M β) : M β := fun s =>
  match x s with
  | (some (.ok a), tr, s1) =>
    match f a s1 with
    | (r, tr2, s2) => (r, tr ++ tr2, s2)
  | (some (.error e), tr, s1) => (some (.error e), tr, s1)
  | (none, tr, s1) => (none, tr, s1)

instance : Monad M where
  pure := M.pure
  bind := M.bind

def M.fail (e : Err) : M α := fun s => (some (.error e), [], s)

/-- `conn.Write(bytes)` : issue the frame, consume one write response. -/
def busWrite (bytes : List Nat) : M Unit := fun s =>
  match s with
  | .wOk :: rest => (some (.ok ()), [.write bytes], rest)
  | .wErr :: rest => (some (.error .busErr), [.write bytes], rest)
  | _ => (none, [.write bytes], s)

/-- `conn.WriteByte(b)` : single-byte write. -/
def busWriteByte (b : Nat) : M Unit := fun s =>
  match s with
  | .wOk :: rest => (some (.ok ()), [.writeByte b], rest)
  | .wErr :: rest => (some (.error .busErr), [.writeByte b], rest)
  | _ => (none, [.writeByte b], s)

/-- `conn.ReadByte()` : single-byte read. -/
def busReadByte : M Nat := fun s =>
  match s with
  | .rOk b :: rest => (some (.ok b), [.readByte], rest)
  | .rErr :: rest => (some (.error .busErr), [.readByte], rest)
  | _ => (none, [.readByte], s)

/-- `conn.Read(values)` on a fresh zeroed buffer of length `n`: returns the
transport's byte count together with the buffer contents after the call
(the transport fills the front of the buffer, the rest stays zero). -/
def busReadBuf (n : Nat) : M (Nat × List Nat) := fun s =>
  match s with
  | .bufOk count bytes :: rest =>
    (some (.ok (count, bytes.take n ++ List.replicate (n - bytes.length) 0)),
      [.readBuf n], rest)
  | .bufErr :: rest => (some (.error .busErr), [.readBuf n], rest)
  | _ => (none, [.readBuf n], s)

/-- `DigitalWrite(pin, v)` on the gobot adaptor. -/
def busDigitalWrite (pin : String) (v : Nat) : M Unit := fun s =>
  match s with
  | .dOk :: rest => (some (.ok ()), [.digitalWrite pin v], rest)
  | .dErr :: rest => (some (.error .busErr), [.digitalWrite pin v], rest)
  | _ => (none, [.digitalWrite pin v], s)

/-- `i2cConnector.GetConnection(addr, bus)` at the start of `Start`. -/
def busGetConn : M Unit := fun s =>
  match s with
  | .cOk :: rest => (some (.ok ()), [.getConn], rest)
  | .cErr :: rest => (some (.error .busErr), [.getConn], rest)
  | _ => (none, [.getConn], s)

/-- Coerce a raw script-consuming loop into the monad. -/
def liftLoop (f : List Resp → Option (Except Err α) × List Req × List Resp) :
    M α := f

/-- The clear-to-send wait loop at the end of `sendCommand`: read single
status bytes until bit `STATUS_CTS` (0x80) is set; a read error aborts with
that error.  The source loop starts from `status := 0`, so it always reads
at least once. -/
def ctsWait : List Resp → Option (Except Err Unit) × List Req × List Resp
  | .rOk b :: rest =>
    if b &&& STATUS_CTS = 0 then
      match ctsWait rest with
      | (r, tr, s1) => (r, .readByte :: tr, s1)
    else (some (.ok ()), [.readByte], rest)
  | .rErr :: rest => (some (.error .busErr), [.readByte], rest)
  | s => (none, [.readByte], s)

/-- Go `sendCommand`: write the frame; if its opcode is `CMD_POWER_DOWN`
return immediately, otherwise run the clear-to-send wait loop.  (The
`radio.go` variant compares against `cmdPowerDown[0]`, the never-mutated
first byte of the power-down template, which is the same constant 0x11.) -/
def sendCommand (cmd : List Nat) : M Unit := do
  busWrite cmd
  if cmd.headD 0 = CMD_POWER_DOWN then
    M.pure ()
  else
    liftLoop ctsWait

/-- Polling loop of `tuneFM`: `getStatus` (a `WriteByte CMD_GET_INT_STATUS`
followed by a `ReadByte`) until the status has bits 0x81 set.  The source
returns `nil` — success — when `getStatus` fails with a bus error. -/
def tuneWait : List Resp → Option (Except Err Unit) × List Req × List Resp
  | .wOk :: .rOk b :: rest =>
    if b &&& 0x81 = 0x81 then
      (some (.ok ()), [.writeByte CMD_GET_INT_STATUS, .readByte], rest)
    else
      match tuneWait rest with
      | (r, tr, s1) => (r, .writeByte CMD_GET_INT_STATUS :: .readByte :: tr, s1)
  | .wOk :: .rErr :: rest =>
    (some (.ok ()), [.writeByte CMD_GET_INT_STATUS, .readByte], rest)
  | .wErr :: rest => (some (.ok ()), [.writeByte CMD_GET_INT_STATUS], rest)
  | .wOk :: s => (none, [.writeByte CMD_GET_INT_STATUS, .readByte], .wOk :: s)
  | s => (none, [.writeByte CMD_GET_INT_STATUS], s)

/-- Polling loop of `readTuneMeasure`: `getStatus` until the status equals
0x81 exactly; a `getStatus` failure is propagated as an error. -/
def measureWait : List Resp → Option (Except Err Unit) × List Req × List Resp
  | .wOk :: .rOk b :: rest =>
    if b = 0x81 then
      (some (.ok ()), [.writeByte CMD_GET_INT_STATUS, .readByte], rest)
    else
      match measureWait rest with
      | (r, tr, s1) => (r, .writeByte CMD_GET_INT_STATUS :: .readByte :: tr, s1)
  | .wOk :: .rErr :: rest =>
    (some (.error .busErr), [.writeByte CMD_GET_INT_STATUS, .readByte], rest)
  | .wErr :: rest => (some (.error .busErr), [.writeByte CMD_GET_INT_STATUS], rest)
  | .wOk :: s => (none, [.writeByte CMD_GET_INT_STATUS, .readByte], .wOk :: s)
  | s => (none, [.writeByte CMD_GET_INT_STATUS], s)

/-! Frames, as built by the `part_001` constructors (the `radio.go` templates
produce the same bytes; that is proved in the `RadioGo` section). -/

def cmdPowerUpFrame : List Nat := [CMD_POWER_UP, 0x12, 0x50]

def cmdPowerDownFrame : List Nat := [CMD_POWER_DOWN, 0]

def cmdGetRevFrame : List Nat := [CMD_GET_REV, 0]

def cmdTuneFMFrame (h l : Nat) : List Nat := [CMD_TX_TUNE_FREQ, 0, h, l]

def cmdReadTuneStatusFrame : List Nat := [CMD_TX_TUNE_STATUS, 0x1]

def cmdTuneMeasureFrame (h l : Nat) : List Nat := [CMD_TX_TUNE_MEASURE, 0, h, l, 0]

def cmdSetTxPowerFrame (pwr antCap : Nat) : List Nat :=
  [CMD_TX_TUNE_POWER, 0, 0, pwr, antCap]

def cmdSetPropertyFrame (property value : Nat) : List Nat :=
  [CMD_SET_PROPERTY, 0, property / 2 ^ 8 % 2 ^ 8, property % 2 ^ 8,
    value / 2 ^ 8 % 2 ^ 8, value % 2 ^ 8]

def cmdSetRDSStationNameFrame (slotName n1 n2 n3 n4 : Nat) : List Nat :=
  [CMD_TX_RDS_PS, slotName, n1, n2, n3, n4]

def cmdSetRDSMessageFrame (messageType msgType msgP slot n1 n2 n3 n4 : Nat) :
    List Nat :=
  [messageType, msgType, msgP, slot, n1, n2, n3, n4]

def cmdSetGPIOCtrlFrame (pin : Nat) : List Nat := [CMD_GPO_CTL, pin]

def cmdSetGPIOFrame (pin : Nat) : List Nat := [CMD_GPO_SET, pin]

def cmdASQStatusFrame : List Nat := [CMD_TX_ASQ_STATUS, 0x1]

/-- The `Si4713Config` structure.  The two log sinks are Go function values
whose only observable property inside `Validate` is nil-ness, so they are
modelled by the booleans `hasLog` / `hasDebugLog`; strings sent over the bus
are byte lists. -/
structure Si4713Config where
  DebugMode : Bool
  hasDebugLog : Bool
  hasLog : Bool
  AlternateFrequency : Nat
  HasRDS : Bool
  RDSProgramID : Nat
  RDSMessage : List Nat
  ResetPin : String
  RDSStationName : List Nat
  StopAfterFrequencyScan : Bool
  TransmitFrequency : Nat
  TransmitPower : Nat
  WithFrequencyScan : Bool
deriving DecidableEq

/-- Outcome of `Si4713Config.Validate`: a Go `panic`, an error return, or
success together with the normalized configuration (the Go method mutates
the receiver in place). -/
inductive ValidateResult where
  | panicked (msg : String)
  | failed (msg : String)
  | valid (c : Si4713Config)
deriving DecidableEq

/-- Go `Si4713Config.Validate`, identical in both implementations (field
`RDSProgramID` is named `ProgramID` in `radio.go`). -/
def Validate (c : Si4713Config) : ValidateResult :=
  if c.hasLog = false then
    .panicked "logging function cannot be nil. Use something like log.Printf or an empty function instead"
  else if c.DebugMode = true ∧ c.hasDebugLog = false then
    .panicked "cannot use debugging mode without configuring a DebugLog function, e.g. log.Printf"
  else
    let c := if c.ResetPin = "" then { c with ResetPin := "29" } else c
    if c.TransmitFrequency = 0 then
      .failed "FM transmission frequency not set"
    else if c.TransmitFrequency < 8750 ∨ 10800 < c.TransmitFrequency then
      .failed "FM transmission frequency not in 87.50 MHz ... 108 MHz bounds"
    else
      let c :=
        if c.AlternateFrequency < 8750 ∨ 10800 < c.AlternateFrequency then
          { c with AlternateFrequency := 8750 }
        else c
      let c :=
        if c.TransmitPower < 88 then { c with TransmitPower := 88 }
        else if 115 < c.TransmitPower then { c with TransmitPower := 115 }
        else c
      let c := if c.RDSProgramID < 1 then { c with RDSProgramID := 0x3104 } else c
      .valid c

/-- The padding loop shared by `SetRDSStation` and `SetRDSMessage`:
right-pad with spaces to a multiple of 4 bytes. -/
def padTo4 (name : List Nat) : List Nat :=
  if name.length % 4 = 0 then name
  else name ++ List.replicate (4 - name.length % 4) 0x20

namespace PartOne

/-- Go `setProperty`: builds a fresh `cmdSetProperty` frame, fills bytes
2..5 with the big-endian property address and value, and sends it. -/
def setProperty (property value : Nat) : M Unit :=
  sendCommand (cmdSetPropertyFrame property value)

/-- Go `powerUp`: power-up frame then five property writes. -/
def powerUp : M Unit := do
  sendCommand cmdPowerUpFrame
  setProperty PROP_REFCLK_FREQ 32768
  setProperty PROP_TX_PREEMPHASIS 0
  setProperty PROP_TX_ACOMP_ENABLE 0x02
  setProperty PROP_TX_ACOMP_GAIN 10
  setProperty PROP_TX_ACOMP_ENABLE 0x02

/-- Go `powerDown`. -/
def powerDown : M Unit := sendCommand cmdPowerDownFrame

/-- Go `Halt`. -/
def Halt : M Unit := powerDown

/-- Go `buffRead`: read `size` bytes into a fresh buffer; if the transport
reports a different count, fail with the short-read error whose message
formats `size` and `len(values)` (the length of the preallocated buffer). -/
def buffRead (size : Nat) : M (List Nat) := do
  let r ← busReadBuf size
  if r.1 ≠ size then M.fail (.shortRead size r.2.length)
  else M.pure r.2

/-- Go `getRev`: send the revision query and decode byte 1 (part number)
out of a 9-byte response. -/
def getRev : M Nat := do
  sendCommand cmdGetRevFrame
  let values ← buffRead 9
  M.pure (values.getD 1 0)

/-- Go `reset`: requires the digital-writer capability, then pulses the
reset pin high, low, high (the 10 ms sleeps have no bus effect). -/
def reset (hasDW : Bool) (resetPin : String) : M Unit :=
  if hasDW = false then
    M.fail (.configErr "i2c connector does not have a digital writter capability")
  else do
    busDigitalWrite resetPin 1
    busDigitalWrite resetPin 0
    busDigitalWrite resetPin 1

/-- Go `begin`: reset, power up, read the revision; found iff part number 13. -/
def begin (hasDW : Bool) (resetPin : String) : M Bool := do
  reset hasDW resetPin
  powerUp
  let status ← getRev
  M.pure (status = 13)

/-- Go `tuneFM`: send the tune frame (big-endian frequency split), then the
interrupt-status polling loop. -/
def tuneFM (freqKHz : Nat) : M Unit := do
  sendCommand (cmdTuneFMFrame (freqKHz / 2 ^ 8 % 2 ^ 8) (freqKHz % 2 ^ 8))
  liftLoop tuneWait

/-- Go `readTuneMeasure`: round the frequency down to a multiple of 5
(the code's "check freq is multiple of 50khz"), send the tune-measure
frame, then poll until the status equals 0x81. -/
def readTuneMeasure (freq : Nat) : M Unit := do
  let freq := if freq % 5 ≠ 0 then freq - freq % 5 else freq
  sendCommand (cmdTuneMeasureFrame (freq / 2 ^ 8 % 2 ^ 8) (freq % 2 ^ 8))
  liftLoop measureWait

/-- Go `readTuneStatus`: send the tune-status query, then eight single-byte
reads (status, resp1, freq hi, freq lo, resp4, dBuV, antenna cap, noise). -/
def readTuneStatus : M (Nat × Nat × Nat × Nat) := do
  sendCommand cmdReadTuneStatusFrame
  let _ ← busReadByte
  let _ ← busReadByte
  let hi ← busReadByte
  let lo ← busReadByte
  let _ ← busReadByte
  let currdBuV ← busReadByte
  let currAntCap ← busReadByte
  let currNoiseLevel ← busReadByte
  M.pure (hi * 2 ^ 8 + lo, currdBuV, currAntCap, currNoiseLevel)

/-- Go `setTxPower`. -/
def setTxPower (pwr antCap : Nat) : M Unit :=
  sendCommand (cmdSetTxPowerFrame pwr antCap)

/-- Go `readASQ`: ASQ query then a 5-byte buffer read; bytes 2 and 3 are
discarded. -/
def readASQ : M (Nat × Nat × Nat) := do
  sendCommand cmdASQStatusFrame
  let values ← buffRead 5
  M.pure (values.getD 0 0, values.getD 1 0, values.getD 4 0)

/-- Go `deviceStatus`: a 6-byte buffer read (the values are only logged). -/
def deviceStatus : M Unit := do
  let _ ← buffRead 6
  M.pure ()

/-- Go `SetGPIO` (renamed here: a Lean name may not end in those letters). -/
def SetGPIOPin (pin : Nat) : M Unit := sendCommand (cmdSetGPIOFrame pin)

/-- Go `setGPIOCtrl`. -/
def setGPIOCtrl (pin : Nat) : M Unit := sendCommand (cmdSetGPIOCtrlFrame pin)

/-- Slot loop of `SetRDSStation`: `for i := uint8(0); i < slots; i++`,
sending one PS frame per 4-byte slot of the padded name. -/
def rdsStationLoop (name : List Nat) (slots i j : Nat) : M Unit :=
  if _ : i < slots then do
    sendCommand (cmdSetRDSStationNameFrame i (name.getD j 0) (name.getD (j + 1) 0)
      (name.getD (j + 2) 0) (name.getD (j + 3) 0))
    rdsStationLoop name slots (i + 1) (j + 4)
  else M.pure ()
termination_by slots - i

/-- Go `SetRDSStation`: pad the name to 4-byte slots; slot count is
`uint8((len + 3) / 4)`. -/
def SetRDSStation (stationName : List Nat) : M Unit :=
  rdsStationLoop (padTo4 stationName) ((stationName.length + 3) / 4 % 2 ^ 8) 0 0

/-- Slot loop of `SetRDSMessage`: the first slot's type byte is 0x06, every
later slot's is 0x04; each frame carries `[0x35, type, 0x20, slot, 4 bytes]`. -/
def rdsMessageLoop (msg : List Nat) (slots i j : Nat) : M Unit :=
  if _ : i < slots then do
    let msgType : Nat := if i = 0 then 0x06 else 0x04
    sendCommand (cmdSetRDSMessageFrame CMD_TX_RDS_BUFF msgType 0x20 i
      (msg.getD j 0) (msg.getD (j + 1) 0) (msg.getD (j + 2) 0) (msg.getD (j + 3) 0))
    rdsMessageLoop msg slots (i + 1) (j + 4)
  else M.pure ()
termination_by slots - i

/-- Go `setRDSTime`: the fixed hardcoded real-time-clock frame. -/
def setRDSTime : M Unit :=
  sendCommand (cmdSetRDSMessageFrame CMD_TX_RDS_BUFF 0x84 0x40 0x01 0xA7 0x0B 0x2D 0x6C)

/-- Go `SetRDSMessage`: the slot frames (slot count `uint8((len + 3) / 4)`),
then the RDS-time frame, then the component-enable property write. -/
def SetRDSMessage (message : List Nat) : M Unit := do
  rdsMessageLoop (padTo4 message) ((message.length + 3) / 4 % 2 ^ 8) 0 0
  setRDSTime
  setProperty PROP_TX_COMPONENT_ENABLE 0x0007

/-- Go `beginRDS`: the fixed RDS property sequence. -/
def beginRDS (programID alternateFrequency : Nat) : M Unit := do
  setProperty PROP_TX_AUDIO_DEVIATION 6625
  setProperty PROP_TX_RDS_DEVIATION 200
  setProperty PROP_TX_RDS_INTERRUPT_SOURCE 0x0001
  setProperty PROP_TX_RDS_PI programID
  setProperty PROP_TX_RDS_PS_MIX 0x03
  setProperty PROP_TX_RDS_PS_MISC 0x1808
  setProperty PROP_TX_RDS_PS_REPEAT_COUNT 3
  setProperty PROP_TX_RDS_MESSAGE_COUNT 1
  setProperty PROP_TX_RDS_PS_AF alternateFrequency
  setProperty PROP_TX_RDS_FIFO_SIZE 0
  setProperty PROP_TX_COMPONENT_ENABLE 0x0007

/-- Go `EnableRDS`. -/
def EnableRDS (c : Si4713Config) : M Unit := do
  beginRDS c.RDSProgramID c.AlternateFrequency
  SetRDSStation c.RDSStationName
  SetRDSMessage c.RDSMessage

/-- Scan loop of `scanFrequencies`: `for f := uint16(7600); f < 10800; f += 10`,
each step a tune-measure followed by a tune-status read. -/
def scanLoop (f : Nat) : M Unit :=
  if _ : f < 10800 then do
    readTuneMeasure f
    let _ ← readTuneStatus
    scanLoop (f + 10)
  else M.pure ()
termination_by 10800 - f

/-- Go `scanFrequencies`. -/
def scanFrequencies : M Unit := scanLoop 7600

/-- Go `scanTransmitFrequency`. -/
def scanTransmitFrequency (transmitFrequency : Nat) : M Unit := do
  readTuneMeasure transmitFrequency
  let _ ← readTuneStatus
  M.pure ()

/-- Go `Loop`: a no-op unless debug mode is on; otherwise ASQ read, two GPIO
toggles, device status. -/
def Loop (c : Si4713Config) : M Unit :=
  if c.DebugMode = false then M.pure ()
  else do
    let _ ← readASQ
    SetGPIOPin (2 ^ 1)
    SetGPIOPin (2 ^ 2)
    deviceStatus

/-- Go `Start` of `part_001`: re-validate the embedded configuration, open
the connection, begin (reset + power-up + revision check), optional scans,
set power, tune, read tune status, optional RDS, GPIO control.
`hasDW` records whether the connector has the digital-writer capability. -/
def Start (c : Si4713Config) (hasDW : Bool) : M Unit :=
  match Validate c with
  | .panicked m => M.fail (.panicked m)
  | .failed m => M.fail (.configErr m)
  | .valid c => do
    busGetConn
    let begun ← begin hasDW c.ResetPin
    if begun = false then M.fail .notFound
    else do
      (if c.WithFrequencyScan then scanFrequencies else M.pure ())
      if c.StopAfterFrequencyScan then M.fail .forcedStop
      else do
        (if c.WithFrequencyScan then scanTransmitFrequency c.TransmitFrequency
          else M.pure ())
        setTxPower c.TransmitPower 0
        tuneFM c.TransmitFrequency
        let _ ← readTuneStatus
        (if c.HasRDS then EnableRDS c else M.pure ())
        setGPIOCtrl (2 ^ 1 ||| 2 ^ 2)

end PartOne

/-! Helpers for stating and proving trace properties. -/

/-- The frames written to the bus in a request trace. -/
def writesOf (tr : List Req) : List (List Nat) :=
  tr.filterMap fun r =>
    match r with
    | .write bs => some bs
    | _ => none

/-- Does a frame start with the set-property opcode? -/
def isPropertyWrite (bs : List Nat) : Bool := bs.headD 0 = CMD_SET_PROPERTY

/-- A transport that always answers a frame write with success and the next
status read with clear-to-send: `n` repetitions of `[wOk, rOk 0x80]`. -/
def readyScript (n : Nat) : List Resp :=
  (List.replicate n [Resp.wOk, Resp.rOk 0x80]).flatten

theorem bind_eq (x : M α) (f : α → M β) : x >>= f = M.bind x f := rfl

theorem pure_eq (a : α) : (Pure.pure a : M α) = M.pure a := rfl

theorem M.bind_assoc (x : M α) (f : α → M β) (g : β → M γ) :
    M.bind (M.bind x f) g = M.bind x fun a => M.bind (f a) g := by
  funext s
  rcases hx : x s with ⟨r, tr, s1⟩
  match r with
  | none => simp [M.bind, hx]
  | some (.error e) => simp [M.bind, hx]
  | some (.ok a) =>
    rcases hf : f a s1 with ⟨r2, tr2, s2⟩
    match r2 with
    | none => simp [M.bind, hx, hf]
    | some (.error e) => simp [M.bind, hx, hf]
    | some (.ok b) =>
      rcases hg : g b s2 with ⟨r3, tr3, s3⟩
      simp [M.bind, hx, hf, hg]

/-- Whatever the script holds, a computation that starts with a frame write
has that write at the head of its request trace. -/
theorem busWrite_bind_head (bs : List Nat) (k : Unit → M α) (s : List Resp) :
    ((M.bind (busWrite bs) k) s).2.1.head? = some (.write bs) := by
  match s with
  | [] => simp [M.bind, busWrite]
  | .wOk :: rest =>
    rcases hk : k () rest with ⟨r2, tr2, s2⟩
    simp [M.bind, busWrite, hk]
  | .wErr :: rest => simp [M.bind, busWrite]
  | .rOk b :: rest => simp [M.bind, busWrite]
  | .rErr :: rest => simp [M.bind, busWrite]
  | .bufOk c b :: rest => simp [M.bind, busWrite]
  | .bufErr :: rest => simp [M.bind, busWrite]
  | .dOk :: rest => simp [M.bind, busWrite]
  | .dErr :: rest => simp [M.bind, busWrite]
  | .cOk :: rest => simp [M.bind, busWrite]
  | .cErr :: rest => simp [M.bind, busWrite]

/-- C7: the send-command handshake, after writing a non-power-down frame,
reads single status bytes until one has bit 0x80 set; given the status-read
sequence `[0x00, 0x00, 0x80]`, exactly 3 status reads occur (the trace holds
exactly three `readByte` requests) and the call succeeds. -/
theorem C7_sendCommand_cts_three_reads (cmd : List Nat)
    (h : cmd.headD 0 ≠ CMD_POWER_DOWN) :
    sendCommand cmd [.wOk, .rOk 0x00, .rOk 0x00, .rOk 0x80] =
      (some (.ok ()), [.write cmd, .readByte, .readByte, .readByte], []) := by
  simp only [List.headD_eq_head?_getD] at h
  simp [sendCommand, bind_eq, M.bind, busWrite, liftLoop, if_neg h, ctsWait, STATUS_CTS]

/-- C7 witness: the revision-query frame (opcode 0x10) at the scripted
status-read sequence `[0x00, 0x00, 0x80]`. -/
theorem C7_witness :
    cmdGetRevFrame.headD 0 ≠ CMD_POWER_DOWN ∧
      sendCommand cmdGetRevFrame [.wOk, .rOk 0x00, .rOk 0x00, .rOk 0x80] =
        (some (.ok ()), [.write cmdGetRevFrame, .readByte, .readByte, .readByte], []) :=
  ⟨by decide, C7_sendCommand_cts_three_reads cmdGetRevFrame (by decide)⟩

/-- C8: a frame whose opcode is power-down (0x11) never enters the
ready-bit wait loop: whenever the frame write succeeds, no request after the
write is issued (in particular zero status-byte reads occur), the rest of
the script is untouched, and `sendCommand` returns success. -/
theorem C8_powerdown_no_status_read (cmd : List Nat) (rest : List Resp)
    (h : cmd.headD 0 = CMD_POWER_DOWN) :
    sendCommand cmd (.wOk :: rest) = (some (.ok ()), [.write cmd], rest) := by
  simp only [List.headD_eq_head?_getD] at h
  simp [sendCommand, bind_eq, M.bind, busWrite, if_pos h, M.pure, pure_eq]

/-- C8 witness: the power-down frame itself on a transport whose write
succeeds. -/
theorem C8_witness :
    cmdPowerDownFrame.headD 0 = CMD_POWER_DOWN ∧
      sendCommand cmdPowerDownFrame [.wOk] =
        (some (.ok ()), [.write cmdPowerDownFrame], []) :=
  ⟨by decide, C8_powerdown_no_status_read cmdPowerDownFrame [] (by decide)⟩

/-- C1: evaluating `tuneFM` at the failing input.  Script: the tune frame
write succeeds, clear-to-send is immediate, then the first `getStatus` poll
fails on its status-byte read.  The run returns success (`ok`), not an
error: the source's polling loop executes `return nil` when `getStatus`
fails, swallowing the bus error (its sibling loop in `readTuneMeasure`
propagates the same error). -/
theorem C1_tuneFM_swallows_poll_error :
    PartOne.tuneFM 9000 [.wOk, .rOk 0x80, .wOk, .rErr] =
      (some (.ok ()),
        [.write (cmdTuneFMFrame 35 40), .readByte,
          .writeByte CMD_GET_INT_STATUS, .readByte],
        []) := rfl

/-- C5: evaluating `buffRead` at the failing input: a 9-byte read for which
the transport returns only 1 byte (and no error).  The operation fails with
the short-read error, but the two counts formatted into its message are
`size` and `len(values)` — the length of the preallocated 9-byte buffer —
so the message reads "failed to read 9 bytes ... read 9": the actual
count 1 is not reported and the two counts are equal, never differing. -/
theorem C5_shortread_counts_equal :
    PartOne.buffRead 9 [.bufOk 1 [0x80]] =
      (some (.error (.shortRead 9 9)), [.readBuf 9], []) := rfl

/-- C5 general fact: the second count in the short-read error always equals
the expected count (the buffer is preallocated at `size`), whatever count
the transport actually returned. -/
theorem C5_actual_equals_expected (size count : Nat) (bytes : List Nat)
    (h : count ≠ size) :
    PartOne.buffRead size [.bufOk count bytes] =
      (some (.error (.shortRead size size)), [.readBuf size], []) := by
  have hlen : (bytes.take size ++ List.replicate (size - bytes.length) 0).length = size := by
    simp [List.length_take]
    omega
  simp [PartOne.buffRead, bind_eq, M.bind, busReadBuf, h, M.fail, hlen]

/-- C5 witness for the general fact, at expected 9, transport count 1. -/
theorem C5_actual_equals_expected_witness :
    (1 : Nat) ≠ 9 ∧
      PartOne.buffRead 9 [.bufOk 1 [0x80, 0x13]] =
        (some (.error (.shortRead 9 9)), [.readBuf 9], []) :=
  ⟨by decide, C5_actual_equals_expected 9 1 [0x80, 0x13] (by decide)⟩

/-- C2 counterexample: under an always-ready transport, the power-up
sequence issues five set-property frames, not four: the claim's count of
exactly four fails on the code (`PROP_TX_ACOMP_ENABLE` is written twice). -/
theorem C2_counterexample :
    ((writesOf (PartOne.powerUp (readyScript 6)).2.1).filter isPropertyWrite).length = 5 ∧
      ((writesOf (PartOne.powerUp (readyScript 6)).2.1).filter isPropertyWrite).length ≠ 4 := by
  constructor <;> decide

/-- C2 as amended: the power-up sequence sends the power-up frame first,
then exactly five set-property commands in the fixed order reference-clock
frequency 32768 Hz, pre-emphasis 0, limiter/AGC enable 0x02, limiter gain
10, limiter/AGC enable 0x02 again; no other frames are written and the run
succeeds, consuming the whole script. -/
theorem C2_powerUp_frame_sequence :
    writesOf (PartOne.powerUp (readyScript 6)).2.1 =
        [cmdPowerUpFrame,
          cmdSetPropertyFrame PROP_REFCLK_FREQ 32768,
          cmdSetPropertyFrame PROP_TX_PREEMPHASIS 0,
          cmdSetPropertyFrame PROP_TX_ACOMP_ENABLE 0x02,
          cmdSetPropertyFrame PROP_TX_ACOMP_GAIN 10,
          cmdSetPropertyFrame PROP_TX_ACOMP_ENABLE 0x02] ∧
      (PartOne.powerUp (readyScript 6)).1 = some (.ok ()) ∧
      (PartOne.powerUp (readyScript 6)).2.2 = [] := by
  refine ⟨by decide, rfl, by decide⟩

/-- C3 counterexample: `readTuneMeasure 8755` encodes 8755 itself into the
tune-measure frame (8755 is a multiple of 5, so the code leaves it alone),
not 8750, the largest multiple of 50 not exceeding the input: the claimed
0.5 MHz rounding fails. -/
theorem C3_counterexample :
    PartOne.readTuneMeasure 8755 [.wOk, .rOk 0x80, .wOk, .rOk 0x81] =
        (some (.ok ()),
          [.write (cmdTuneMeasureFrame 34 51), .readByte,
            .writeByte CMD_GET_INT_STATUS, .readByte],
          []) ∧
      34 * 2 ^ 8 + 51 = 8755 ∧ ¬ 50 ∣ 8755 ∧ 8755 % 5 = 0 := by
  refine ⟨rfl, by norm_num, by decide, by decide⟩

/-- C3 as amended: for every input frequency and script, the frame written
first by the tune-measure operation encodes `freq - freq % 5`, the largest
multiple of 5 hundredths-of-MHz (0.05 MHz = 50 kHz) not exceeding the
input, split into high/low bytes. -/
theorem C3_tuneMeasure_rounds_to_50kHz (freq : Nat) (s : List Resp) :
    (PartOne.readTuneMeasure freq s).2.1.head? =
        some (.write (cmdTuneMeasureFrame ((freq - freq % 5) / 2 ^ 8 % 2 ^ 8)
          ((freq - freq % 5) % 2 ^ 8))) ∧
      5 ∣ freq - freq % 5 ∧ freq - freq % 5 ≤ freq ∧ freq < freq - freq % 5 + 5 := by
  refine ⟨?_, ?_, ?_, ?_⟩
  · have hrw : PartOne.readTuneMeasure freq =
        M.bind (busWrite (cmdTuneMeasureFrame ((freq - freq % 5) / 2 ^ 8 % 2 ^ 8)
          ((freq - freq % 5) % 2 ^ 8)))
          (fun _ => M.bind (if (cmdTuneMeasureFrame ((freq - freq % 5) / 2 ^ 8 % 2 ^ 8)
              ((freq - freq % 5) % 2 ^ 8)).headD 0 = CMD_POWER_DOWN then M.pure ()
            else liftLoop ctsWait) (fun _ => liftLoop measureWait)) := by
      by_cases h5 : freq % 5 = 0
      · simp [PartOne.readTuneMeasure, h5, sendCommand, bind_eq, M.bind_assoc]
      · simp [PartOne.readTuneMeasure, h5, sendCommand, bind_eq, M.bind_assoc]
    rw [hrw]
    exact busWrite_bind_head _ _ s
  · exact ⟨freq / 5, by omega⟩
  · omega
  · omega

/-- A configuration refuting C6 as stated: transmit frequency 9000 (in
range), primary log sink set, debug mode enabled but no debug sink. -/
def cfgDebugNoSink : Si4713Config :=
  { DebugMode := true
    hasDebugLog := false
    hasLog := true
    AlternateFrequency := 9000
    HasRDS := false
    RDSProgramID := 1
    RDSMessage := []
    ResetPin := "29"
    RDSStationName := []
    StopAfterFrequencyScan := false
    TransmitFrequency := 9000
    TransmitPower := 100
    WithFrequencyScan := false }

/-- C6 counterexample: with the transmit frequency in range and the primary
log sink set, `Validate` still panics when debug mode is enabled and the
debug sink is unset — validation does not succeed for every such
configuration. -/
theorem C6_counterexample :
    cfgDebugNoSink.hasLog = true ∧
      8750 ≤ cfgDebugNoSink.TransmitFrequency ∧
      cfgDebugNoSink.TransmitFrequency ≤ 10800 ∧
      Validate cfgDebugNoSink =
        .panicked "cannot use debugging mode without configuring a DebugLog function, e.g. log.Printf" := by
  refine ⟨rfl, by decide, by decide, rfl⟩

/-- C6 as amended: for every configuration whose transmit frequency lies in
[8750, 10800], whose primary logging sink is set, and whose debug sink is
set whenever debug mode is enabled, `Validate` succeeds (no error, no
panic) and leaves the transmit frequency unchanged; in particular an unset
debug sink never makes validation fail while debug mode is off. -/
theorem C6_validate_ok (c : Si4713Config) (hlog : c.hasLog = true)
    (h1 : 8750 ≤ c.TransmitFrequency) (h2 : c.TransmitFrequency ≤ 10800)
    (hdbg : c.DebugMode = true → c.hasDebugLog = true) :
    ∃ c2, Validate c = .valid c2 ∧ c2.TransmitFrequency = c.TransmitFrequency := by
  have hnd : ¬(c.DebugMode = true ∧ c.hasDebugLog = false) := by
    rintro ⟨hd, hn⟩
    rw [hdbg hd] at hn
    exact absurd hn (by simp)
  have hf0 : ¬c.TransmitFrequency = 0 := by omega
  have hfb : ¬(c.TransmitFrequency < 8750 ∨ 10800 < c.TransmitFrequency) := by omega
  unfold Validate
  rw [if_neg (by simp [hlog]), if_neg hnd]
  by_cases hrp : c.ResetPin = "" <;>
    by_cases haf : c.AlternateFrequency < 8750 ∨ 10800 < c.AlternateFrequency <;>
      by_cases hp1 : c.TransmitPower < 88 <;>
        by_cases hp2 : 115 < c.TransmitPower <;>
          by_cases hpi : c.RDSProgramID < 1 <;>
            simp [hrp, haf, hp1, hp2, hpi, hf0, hfb]

/-- C6 witness: a concrete configuration with frequency 9550, log sink set,
debug mode off and no debug sink. -/
theorem C6_witness :
    ∃ c2,
      Validate
          { DebugMode := false
            hasDebugLog := false
            hasLog := true
            AlternateFrequency := 0
            HasRDS := true
            RDSProgramID := 0
            RDSMessage := []
            ResetPin := ""
            RDSStationName := []
            StopAfterFrequencyScan := false
            TransmitFrequency := 9550
            TransmitPower := 120
            WithFrequencyScan := false } = .valid c2 ∧
        c2.TransmitFrequency = 9550 :=
  C6_validate_ok _ rfl (by decide) (by decide) (by decide)

/-! Frequency-scan trace analysis for C4. -/

/-- The frequencies encoded in the tune-measure frames of a request trace. -/
def measuredFreqsOf (tr : List Req) : List Nat :=
  tr.filterMap fun r =>
    match r with
    | .write [c, _, h, l, _] =>
      if c = CMD_TX_TUNE_MEASURE then some (h * 2 ^ 8 + l) else none
    | _ => none

/-- Transport responses consumed by one scan-loop iteration: tune-measure
write + CTS, one 0x81 status poll, tune-status write + CTS, eight data
bytes. -/
def scanIterScript : List Resp :=
  [.wOk, .rOk 0x80, .wOk, .rOk 0x81, .wOk, .rOk 0x80,
    .rOk 0, .rOk 0, .rOk 0, .rOk 0, .rOk 0, .rOk 0, .rOk 0, .rOk 0]

/-- Script for `n` scan-loop iterations. -/
def scanScript (n : Nat) : List Resp := (List.replicate n scanIterScript).flatten

/-- Requests issued by one scan-loop iteration at frequency `f` (already a
multiple of 5). -/
def scanIterTrace (f : Nat) : List Req :=
  [.write (cmdTuneMeasureFrame (f / 2 ^ 8 % 2 ^ 8) (f % 2 ^ 8)), .readByte,
    .writeByte CMD_GET_INT_STATUS, .readByte,
    .write cmdReadTuneStatusFrame, .readByte,
    .readByte, .readByte, .readByte, .readByte, .readByte, .readByte, .readByte,
    .readByte]

theorem scanBody_ready (f : Nat) (h5 : f % 5 = 0) (k : M Unit) (rest : List Resp) :
    M.bind (PartOne.readTuneMeasure f)
        (fun _ => M.bind PartOne.readTuneStatus fun _ => k)
        (scanIterScript ++ rest) =
      ((k rest).1, scanIterTrace f ++ (k rest).2.1, (k rest).2.2) := by
  rcases hk : k rest with ⟨r, tr, s1⟩
  simp [PartOne.readTuneMeasure, h5, PartOne.readTuneStatus, sendCommand, bind_eq,
    pure_eq, M.bind, M.pure, busWrite, busWriteByte, busReadByte, liftLoop, ctsWait,
    measureWait, scanIterScript, scanIterTrace, cmdTuneMeasureFrame,
    cmdReadTuneStatusFrame, CMD_TX_TUNE_MEASURE, CMD_TX_TUNE_STATUS,
    CMD_POWER_DOWN, CMD_GET_INT_STATUS, STATUS_CTS, hk]

theorem scanLoop_run :
    ∀ n f, f + 10 * n = 10800 → f % 10 = 0 →
      ∃ tr, PartOne.scanLoop f (scanScript n) = (some (.ok ()), tr, []) ∧
        measuredFreqsOf tr = (List.range n).map fun k => f + 10 * k := by
  intro n
  induction n with
  | zero =>
    intro f hsum _
    have hf : ¬f < 10800 := by omega
    refine ⟨[], ?_, by simp [measuredFreqsOf]⟩
    rw [PartOne.scanLoop]
    simp [hf, M.pure, scanScript]
  | succ n ih =>
    intro f hsum h10
    have hf : f < 10800 := by omega
    have h5 : f % 5 = 0 := by omega
    have hfs : f ≤ 10800 := by omega
    obtain ⟨tr, htr, hm⟩ := ih (f + 10) (by omega) (by omega)
    refine ⟨scanIterTrace f ++ tr, ?_, ?_⟩
    · rw [PartOne.scanLoop]
      have hs : scanScript (n + 1) = scanIterScript ++ scanScript n := by
        simp [scanScript, List.replicate_succ]
      simp only [hf, dif_pos, bind_eq, hs]
      rw [scanBody_ready f h5 (PartOne.scanLoop (f + 10)) (scanScript n), htr]
    · have hone : measuredFreqsOf (scanIterTrace f) = [f] := by
        have : f / 256 % 256 * 256 + f % 256 = f := by omega
        simp [measuredFreqsOf, scanIterTrace, cmdTuneMeasureFrame,
          cmdReadTuneStatusFrame, CMD_TX_TUNE_MEASURE, CMD_TX_TUNE_STATUS, this]
      have hshift : ∀ k, f + 10 * (k + 1) = f + 10 + 10 * k := by intro k; ring
      simp [measuredFreqsOf, List.filterMap_append] at hone hm ⊢
      simp [hone, hm, List.range_succ_eq_map, List.map_map, Function.comp, hshift]

/-- C4 counterexample: under an always-ready transport the frequency scan
measures 76.00 MHz — far below the legal transmit band of the claim — and
never measures 108.00 MHz, refuting both halves of the claim. -/
theorem C4_counterexample :
    7600 ∈ measuredFreqsOf (PartOne.scanFrequencies (scanScript 320)).2.1 ∧
      10800 ∉ measuredFreqsOf (PartOne.scanFrequencies (scanScript 320)).2.1 ∧
      7600 < 8750 := by
  obtain ⟨tr, htr, hm⟩ := scanLoop_run 320 7600 (by norm_num) (by norm_num)
  rw [PartOne.scanFrequencies, htr]
  refine ⟨?_, ?_, by norm_num⟩
  · rw [hm]
    exact List.mem_map.mpr ⟨0, by simp, by norm_num⟩
  · rw [hm]
    intro hmem
    obtain ⟨k, hk, he⟩ := List.mem_map.mp hmem
    rw [List.mem_range] at hk
    omega

/-- C4 as amended: the scan issues one tune-measure command for every
0.10 MHz step from 76.00 MHz up to but excluding 108.00 MHz: exactly the
frequencies 7600, 7610, ..., 10790 hundredths-of-MHz (all the multiples of
10 in that half-open range) are measured, in increasing order, and the run
succeeds. -/
theorem C4_scan_measures_7600_to_10790 :
    ∃ tr, PartOne.scanFrequencies (scanScript 320) = (some (.ok ()), tr, []) ∧
      measuredFreqsOf tr = ((List.range 320).map fun k => 7600 + 10 * k) ∧
      ∀ g, g ∈ measuredFreqsOf tr ↔ 7600 ≤ g ∧ g < 10800 ∧ g % 10 = 0 := by
  obtain ⟨tr, htr, hm⟩ := scanLoop_run 320 7600 (by norm_num) (by norm_num)
  refine ⟨tr, htr, hm, ?_⟩
  intro g
  rw [hm]
  constructor
  · intro hmem
    obtain ⟨k, hk, he⟩ := List.mem_map.mp hmem
    rw [List.mem_range] at hk
    omega
  · rintro ⟨hg1, hg2, hg3⟩
    exact List.mem_map.mpr ⟨(g - 7600) / 10, List.mem_range.mpr (by omega), by omega⟩

/-! RDS message-frame analysis for C9. -/

/-- The fixed RDS-time frame sent by `setRDSTime`. -/
def rdsTimeFrame : List Nat :=
  cmdSetRDSMessageFrame CMD_TX_RDS_BUFF 0x84 0x40 0x01 0xA7 0x0B 0x2D 0x6C

/-- The `i`-th RDS buffer slot frame for a padded message. -/
def rdsSlotFrame (msg : List Nat) (i : Nat) : List Nat :=
  cmdSetRDSMessageFrame CMD_TX_RDS_BUFF (if i = 0 then 0x06 else 0x04) 0x20 i
    (msg.getD (4 * i) 0) (msg.getD (4 * i + 1) 0) (msg.getD (4 * i + 2) 0)
    (msg.getD (4 * i + 3) 0)

theorem readyScript_succ (n : Nat) :
    readyScript (n + 1) = .wOk :: .rOk 0x80 :: readyScript n := by
  simp [readyScript, List.replicate_succ]

theorem bind_sendCommand_ready (cmd : List Nat) (h : cmd.headD 0 ≠ CMD_POWER_DOWN)
    (k : Unit → M α) (rest : List Resp) :
    M.bind (sendCommand cmd) k (.wOk :: .rOk 0x80 :: rest) =
      ((k () rest).1, .write cmd :: .readByte :: (k () rest).2.1, (k () rest).2.2) := by
  rcases hk : k () rest with ⟨r, tr, s1⟩
  simp only [List.headD_eq_head?_getD] at h
  simp [sendCommand, bind_eq, M.bind, busWrite, liftLoop, ctsWait, if_neg h,
    STATUS_CTS, hk]

theorem M.bind_run {α β : Type} {x : M α} {s : List Resp} {a : α} {tr : List Req}
    {s1 : List Resp} (hx : x s = (some (.ok a), tr, s1)) (f : α → M β) :
    M.bind x f s = ((f a s1).1, tr ++ (f a s1).2.1, (f a s1).2.2) := by
  rcases hf : f a s1 with ⟨r, tr2, s2⟩
  simp [M.bind, hx, hf]

theorem rdsMessageLoop_run (msg : List Nat) :
    ∀ k i rest, PartOne.rdsMessageLoop msg (i + k) i (4 * i) (readyScript k ++ rest) =
      (some (.ok ()),
        ((List.range k).map fun t => [Req.write (rdsSlotFrame msg (i + t)), Req.readByte]).flatten,
        rest) := by
  intro k
  induction k with
  | zero =>
    intro i rest
    rw [PartOne.rdsMessageLoop]
    simp [M.pure, readyScript]
  | succ k ih =>
    intro i rest
    have hlt : i < i + (k + 1) := by omega
    rw [PartOne.rdsMessageLoop]
    simp only [dif_pos hlt, bind_eq, readyScript_succ, List.cons_append]
    have hne : (cmdSetRDSMessageFrame CMD_TX_RDS_BUFF (if i = 0 then 0x06 else 0x04) 0x20 i
        (msg.getD (4 * i) 0) (msg.getD (4 * i + 1) 0) (msg.getD (4 * i + 2) 0)
        (msg.getD (4 * i + 3) 0)).headD 0 ≠ CMD_POWER_DOWN := by
      simp [cmdSetRDSMessageFrame, CMD_TX_RDS_BUFF, CMD_POWER_DOWN]
    rw [bind_sendCommand_ready _ hne _ (readyScript k ++ rest)]
    rw [show i + (k + 1) = i + 1 + k by omega, show 4 * i + 4 = 4 * (i + 1) by ring,
      ih (i + 1) rest]
    have hmapf : (fun t => [Req.write (rdsSlotFrame msg (i + (t + 1))), Req.readByte]) =
        fun t => [Req.write (rdsSlotFrame msg (i + 1 + t)), Req.readByte] := by
      funext t
      have h3 : i + (t + 1) = i + 1 + t := by omega
      rw [h3]
    have hflat : ((List.range (k + 1)).map fun t =>
          [Req.write (rdsSlotFrame msg (i + t)), Req.readByte]).flatten =
        Req.write (rdsSlotFrame msg i) :: Req.readByte ::
          ((List.range k).map fun t =>
            [Req.write (rdsSlotFrame msg (i + 1 + t)), Req.readByte]).flatten := by
      rw [List.range_succ_eq_map]
      simp [List.map_map, Function.comp_def, hmapf]
    rw [hflat]
    simp [rdsSlotFrame]

theorem writesOf_slot_pairs (f : Nat → List Nat) (l : List Nat) :
    writesOf ((l.map fun t => [Req.write (f t), Req.readByte]).flatten) = l.map f := by
  induction l with
  | nil => rfl
  | cons a l ih => simp [writesOf, List.filterMap_cons] at ih ⊢; exact ih

/-- C9 counterexample: a 1021-character message.  `ceil(1021 / 4) = 256`,
but the slot count is computed as a `uint8`, `uint8((1021 + 3) / 4) = 0`,
so the code sends no RDS buffer slot frame at all — only the RDS-time frame
and the component-enable property write — refuting the claimed frame count
of `ceil(length / 4)`. -/
theorem C9_counterexample :
    writesOf (PartOne.SetRDSMessage (List.replicate 1021 65) (readyScript 2)).2.1 =
        [rdsTimeFrame, cmdSetPropertyFrame PROP_TX_COMPONENT_ENABLE 0x0007] ∧
      (1021 + 3) / 4 = 256 ∧ (1021 + 3) / 4 % 2 ^ 8 = 0 := by
  refine ⟨?_, by norm_num, by norm_num⟩
  rw [PartOne.SetRDSMessage]
  have hslots : ((List.replicate 1021 (65 : Nat)).length + 3) / 4 % 2 ^ 8 = 0 := by
    rw [List.length_replicate]
    norm_num
  simp only [bind_eq, hslots]
  have hloop : PartOne.rdsMessageLoop (padTo4 (List.replicate 1021 65)) 0 0 0
      (readyScript 2) = (some (.ok ()), [], readyScript 2) := by
    rw [PartOne.rdsMessageLoop, dif_neg (by decide : ¬(0 : Nat) < 0)]
    rfl
  rw [M.bind_run hloop]
  have htail2 : (M.bind PartOne.setRDSTime
      (fun _ => PartOne.setProperty PROP_TX_COMPONENT_ENABLE 0x0007)) (readyScript 2) =
      (some (.ok ()), [.write rdsTimeFrame, .readByte,
        .write (cmdSetPropertyFrame PROP_TX_COMPONENT_ENABLE 0x0007), .readByte], []) := by
    simp [PartOne.setRDSTime, PartOne.setProperty, sendCommand, bind_eq, M.bind,
      busWrite, liftLoop, ctsWait, readyScript, List.replicate_succ, rdsTimeFrame,
      cmdSetRDSMessageFrame, cmdSetPropertyFrame, CMD_TX_RDS_BUFF, CMD_POWER_DOWN,
      CMD_SET_PROPERTY, STATUS_CTS]
  simp only [htail2, List.nil_append]
  simp [writesOf, List.filterMap_cons]

/-- C9 as amended: for every message of length at most 1020 bytes (so the
slot count fits in the `uint8` the code uses), `SetRDSMessage` sends exactly
`ceil(length / 4)` RDS buffer frames carrying the space-padded message in
4-character slots — the first frame's type byte 0x06, every later frame's
0x04, slot index increasing — followed by the fixed RDS-time frame and the
component-enable property write with value 0x0007, and the run succeeds. -/
theorem C9_SetRDSMessage_frames (msg : List Nat) (h : msg.length ≤ 1020) :
    writesOf (PartOne.SetRDSMessage msg (readyScript ((msg.length + 3) / 4 + 2))).2.1 =
        (((List.range ((msg.length + 3) / 4)).map fun i => rdsSlotFrame (padTo4 msg) i) ++
          [rdsTimeFrame, cmdSetPropertyFrame PROP_TX_COMPONENT_ENABLE 0x0007]) ∧
      (PartOne.SetRDSMessage msg (readyScript ((msg.length + 3) / 4 + 2))).1 =
        some (.ok ()) := by
  have hslots : (msg.length + 3) / 4 % 2 ^ 8 = (msg.length + 3) / 4 := by
    apply Nat.mod_eq_of_lt
    omega
  have hsplit : readyScript ((msg.length + 3) / 4 + 2) =
      readyScript ((msg.length + 3) / 4) ++ readyScript 2 := by
    simp [readyScript, List.replicate_add]
  rw [PartOne.SetRDSMessage]
  simp only [bind_eq, hslots, hsplit]
  have hloop := rdsMessageLoop_run (padTo4 msg) ((msg.length + 3) / 4) 0 (readyScript 2)
  simp only [Nat.zero_add, Nat.mul_zero] at hloop
  rw [M.bind_run hloop]
  have htail : (M.bind PartOne.setRDSTime
      (fun _ => PartOne.setProperty PROP_TX_COMPONENT_ENABLE 0x0007)) (readyScript 2) =
      (some (.ok ()), [.write rdsTimeFrame, .readByte,
        .write (cmdSetPropertyFrame PROP_TX_COMPONENT_ENABLE 0x0007), .readByte], []) := by
    simp [PartOne.setRDSTime, PartOne.setProperty, sendCommand, bind_eq, M.bind,
      busWrite, liftLoop, ctsWait, readyScript, List.replicate_succ, rdsTimeFrame,
      cmdSetRDSMessageFrame, cmdSetPropertyFrame, CMD_TX_RDS_BUFF, CMD_POWER_DOWN,
      CMD_SET_PROPERTY, STATUS_CTS]
  simp only [htail]
  have hwr := writesOf_slot_pairs (fun i => rdsSlotFrame (padTo4 msg) i)
    (List.range ((msg.length + 3) / 4))
  constructor
  · simp only [writesOf, List.filterMap_append, List.filterMap_cons] at hwr ⊢
    simp [hwr]
  · trivial

/-- C9 witness: the 8-character message yields exactly two slot frames,
typed 0x06 then 0x04, then the RDS-time frame and the component enable. -/
theorem C9_witness :
    ([65, 66, 67, 68, 69, 70, 71, 72] : List Nat).length ≤ 1020 ∧
      writesOf (PartOne.SetRDSMessage [65, 66, 67, 68, 69, 70, 71, 72]
          (readyScript 4)).2.1 =
        [[0x35, 0x06, 0x20, 0, 65, 66, 67, 68],
          [0x35, 0x04, 0x20, 1, 69, 70, 71, 72],
          rdsTimeFrame, cmdSetPropertyFrame PROP_TX_COMPONENT_ENABLE 0x0007] := by
  have h := C9_SetRDSMessage_frames [65, 66, 67, 68, 69, 70, 71, 72] (by decide)
  refine ⟨by decide, ?_⟩
  have h1 := h.1
  norm_num at h1
  rw [h1]
  decide

/-! The `radio.go` implementation: global mutable command templates, mutated
in place before each send.  The templates that are ever mutated form the
driver-state `Templates`; the never-mutated templates (`cmdPowerUp`,
`cmdPowerDown`, `cmdGetRev`, `cmdReadTuneStatus`, `cmdASQStatus`) are the
constant frames already defined above. -/

structure Templates where
  tuneFM : List Nat
  tuneMeasure : List Nat
  setTxPower : List Nat
  setProperty : List Nat
  rdsPS : List Nat
  rdsBuff : List Nat
  gpoCtrl : List Nat
  gpoSet : List Nat
deriving DecidableEq

/-- The initial values of the mutable templates from the `var` block. -/
def Templates.init : Templates :=
  { tuneFM := [CMD_TX_TUNE_FREQ, 0, 0, 0]
    tuneMeasure := [CMD_TX_TUNE_MEASURE, 0, 0, 0, 0]
    setTxPower := [CMD_TX_TUNE_POWER, 0, 0, 0, 0]
    setProperty := [CMD_SET_PROPERTY, 0, 0, 0, 0, 0]
    rdsPS := [CMD_TX_RDS_PS, 0, 0, 0, 0, 0]
    rdsBuff := [CMD_TX_RDS_BUFF, 0, 0, 0, 0, 0, 0, 0]
    gpoCtrl := [CMD_GPO_CTL, 0]
    gpoSet := [CMD_GPO_SET, 0] }

/-- Shape invariant on the template state: every byte the code never
assigns still holds its initial value, and every template has its fixed
length.  It holds initially and is preserved by every operation. -/
def TemplInv (ts : Templates) : Prop :=
  (∃ a b, ts.tuneFM = [CMD_TX_TUNE_FREQ, 0, a, b]) ∧
  (∃ a b, ts.tuneMeasure = [CMD_TX_TUNE_MEASURE, 0, a, b, 0]) ∧
  (∃ a b, ts.setTxPower = [CMD_TX_TUNE_POWER, 0, 0, a, b]) ∧
  (∃ a b c d, ts.setProperty = [CMD_SET_PROPERTY, 0, a, b, c, d]) ∧
  (∃ a b c d e, ts.rdsPS = [CMD_TX_RDS_PS, a, b, c, d, e]) ∧
  (∃ a b c d e f g h2, ts.rdsBuff = [a, b, c, d, e, f, g, h2]) ∧
  (∃ a, ts.gpoCtrl = [CMD_GPO_CTL, a]) ∧
  (∃ a, ts.gpoSet = [CMD_GPO_SET, a])

theorem TemplInv_init : TemplInv Templates.init :=
  ⟨⟨0, 0, rfl⟩, ⟨0, 0, rfl⟩, ⟨0, 0, rfl⟩, ⟨0, 0, 0, 0, rfl⟩, ⟨0, 0, 0, 0, 0, rfl⟩,
    ⟨CMD_TX_RDS_BUFF, 0, 0, 0, 0, 0, 0, 0, rfl⟩, ⟨0, rfl⟩, ⟨0, rfl⟩⟩

/-- The `radio.go` driver monad: like `M` but threading the mutable
template state. -/
abbrev MG (α : Type) :=
  Templates → List Resp → Option (Except Err α) × List Req × Templates × List Resp

def MG.pure (a : α) : MG α := fun ts s => (some (.ok a), [], ts, s)

def MG.bind (x : MG α) (f : α → MG β) : MG β := fun ts s =>
  match x ts s with
  | (some (.ok a), tr, ts1, s1) =>
    match f a ts1 s1 with
    | (r, tr2, ts2, s2) => (r, tr ++ tr2, ts2, s2)
  | (some (.error e), tr, ts1, s1) => (some (.error e), tr, ts1, s1)
  | (none, tr, ts1, s1) => (none, tr, ts1, s1)

def MG.fail (e : Err) : MG α := fun ts s => (some (.error e), [], ts, s)

/-- Run a template-free computation, leaving the templates untouched. -/
def MG.lift (x : M α) : MG α := fun ts s =>
  match x s with
  | (r, tr, s1) => (r, tr, ts, s1)

/-- Mutate the templates in place, then send the mutated template buffer:
the shape of every template-using operation in `radio.go`. -/
def sendTempl (f : Templates → Templates) (get : Templates → List Nat) : MG Unit :=
  fun ts s =>
    match sendCommand (get (f ts)) s with
    | (r, tr, s1) => (r, tr, f ts, s1)

/-- Observable part of a stateful run: outcome, request trace, remaining
script — the template component dropped. -/
def stripT (r : Option (Except Err α) × List Req × Templates × List Resp) :
    Option (Except Err α) × List Req × List Resp :=
  (r.1, r.2.1, r.2.2.2)

def templOf (r : Option (Except Err α) × List Req × Templates × List Resp) :
    Templates :=
  r.2.2.1

/-- Simulation: from every template state satisfying the invariant, the
stateful computation is observably equal to the template-free one and
preserves the invariant. -/
def Sim (x : MG α) (y : M α) : Prop :=
  ∀ ts s, TemplInv ts → stripT (x ts s) = y s ∧ TemplInv (templOf (x ts s))

theorem Sim.lift (y : M α) : Sim (MG.lift y) y := by
  intro ts s hinv
  rcases hy : y s with ⟨r, tr, s1⟩
  simp [MG.lift, stripT, templOf, hy, hinv]

theorem Sim.pureSim (a : α) : Sim (MG.pure a) (M.pure a) := by
  intro ts s hinv
  simp [MG.pure, M.pure, stripT, templOf, hinv]

theorem Sim.fail (e : Err) : Sim (MG.fail e : MG α) (M.fail e) := by
  intro ts s hinv
  simp [MG.fail, M.fail, stripT, templOf, hinv]

theorem Sim.bind {x : MG α} {y : M α} {f : α → MG β} {g : α → M β}
    (hx : Sim x y) (hf : ∀ a, Sim (f a) (g a)) : Sim (MG.bind x f) (M.bind y g) := by
  intro ts s hinv
  rcases hxr : x ts s with ⟨r, tr, ts1, s1⟩
  obtain ⟨hobs, hinv1⟩ := hx ts s hinv
  rw [hxr] at hobs hinv1
  simp only [stripT, templOf] at hobs hinv1
  have hy : y s = (r, tr, s1) := hobs.symm
  match r with
  | none => simp [MG.bind, M.bind, hxr, hy, stripT, templOf, hinv1]
  | some (.error e) => simp [MG.bind, M.bind, hxr, hy, stripT, templOf, hinv1]
  | some (.ok a) =>
    rcases hfr : f a ts1 s1 with ⟨r2, tr2, ts2, s2⟩
    obtain ⟨hobs2, hinv2⟩ := hf a ts1 s1 hinv1
    rw [hfr] at hobs2 hinv2
    simp only [stripT, templOf] at hobs2 hinv2
    have hg : g a s1 = (r2, tr2, s2) := hobs2.symm
    simp [MG.bind, M.bind, hxr, hy, hfr, hg, stripT, templOf, hinv2]

theorem Sim.ite (c : Prop) [Decidable c] {x x' : MG α} {y y' : M α}
    (h1 : c → Sim x y) (h2 : ¬c → Sim x' y') :
    Sim (if c then x else x') (if c then y else y') := by
  by_cases hc : c
  · simpa [hc] using h1 hc
  · simpa [hc] using h2 hc

theorem sendTempl_sim {f : Templates → Templates} {get : Templates → List Nat}
    {frame : List Nat}
    (hf : ∀ ts, TemplInv ts → get (f ts) = frame ∧ TemplInv (f ts)) :
    Sim (sendTempl f get) (sendCommand frame) := by
  intro ts s hinv
  obtain ⟨hframe, hinv2⟩ := hf ts hinv
  rcases hr : sendCommand frame s with ⟨r, tr, s1⟩
  simp [sendTempl, hframe, hr, stripT, templOf, hinv2]

namespace RadioGo

/-- Go `setProperty` of `radio.go`: mutates bytes 2..5 of the shared
`cmdSetProperty` template, then sends it. -/
def setProperty (property value : Nat) : MG Unit :=
  sendTempl
    (fun ts =>
      { ts with
        setProperty :=
          (((ts.setProperty.set 2 (property / 2 ^ 8 % 2 ^ 8)).set 3
            (property % 2 ^ 8)).set 4 (value / 2 ^ 8 % 2 ^ 8)).set 5 (value % 2 ^ 8) })
    (fun ts => ts.setProperty)

/-- Go `setTxPower` of `radio.go`: mutates bytes 3 and 4 of `cmdSetTxPower`. -/
def setTxPower (pwr antCap : Nat) : MG Unit :=
  sendTempl
    (fun ts => { ts with setTxPower := (ts.setTxPower.set 3 pwr).set 4 antCap })
    (fun ts => ts.setTxPower)

/-- Go `SetGPIO` of `radio.go`: mutates byte 1 of `cmdSetGPIO`. -/
def SetGPIOPin (pin : Nat) : MG Unit :=
  sendTempl (fun ts => { ts with gpoSet := ts.gpoSet.set 1 pin })
    (fun ts => ts.gpoSet)

/-- Go `setGPIOCtrl` of `radio.go`: mutates byte 1 of `cmdSetGPIOCtrl`. -/
def setGPIOCtrl (pin : Nat) : MG Unit :=
  sendTempl (fun ts => { ts with gpoCtrl := ts.gpoCtrl.set 1 pin })
    (fun ts => ts.gpoCtrl)

/-- Go `tuneFM` of `radio.go`: mutates bytes 2 and 3 of `cmdTuneFM`, sends
it, then runs the same interrupt-status polling loop. -/
def tuneFM (freqKHz : Nat) : MG Unit :=
  MG.bind
    (sendTempl
      (fun ts =>
        { ts with
          tuneFM := (ts.tuneFM.set 2 (freqKHz / 2 ^ 8 % 2 ^ 8)).set 3 (freqKHz % 2 ^ 8) })
      (fun ts => ts.tuneFM))
    fun _ => MG.lift (liftLoop tuneWait)

/-- Go `readTuneMeasure` of `radio.go`: rounds the frequency down to a
multiple of 5, mutates bytes 2 and 3 of `cmdTuneMeasure`, sends it, polls. -/
def readTuneMeasure (freq : Nat) : MG Unit :=
  let freq := if freq % 5 ≠ 0 then freq - freq % 5 else freq
  MG.bind
    (sendTempl
      (fun ts =>
        { ts with
          tuneMeasure :=
            (ts.tuneMeasure.set 2 (freq / 2 ^ 8 % 2 ^ 8)).set 3 (freq % 2 ^ 8) })
      (fun ts => ts.tuneMeasure))
    fun _ => MG.lift (liftLoop measureWait)

/-- Go `powerDown` of `radio.go` sends the never-mutated `cmdPowerDown`
template. -/
def powerDown : MG Unit := MG.lift (sendCommand cmdPowerDownFrame)

/-- Go `Halt` of `radio.go`. -/
def Halt : MG Unit := powerDown

/-- Go `getRev` of `radio.go` is byte-for-byte the `part_001` body (the
`cmdGetRev` template is never mutated), so it is the lifted template-free
computation. -/
def getRev : MG Nat := MG.lift PartOne.getRev

/-- Go `readTuneStatus` of `radio.go`: identical template-free body. -/
def readTuneStatus : MG (Nat × Nat × Nat × Nat) := MG.lift PartOne.readTuneStatus

/-- Go `readASQ` of `radio.go`: identical template-free body. -/
def readASQ : MG (Nat × Nat × Nat) := MG.lift PartOne.readASQ

/-- Go `deviceStatus` of `radio.go`: identical template-free body. -/
def deviceStatus : MG Unit := MG.lift PartOne.deviceStatus

/-- Go `reset` of `radio.go`: identical template-free body. -/
def reset (hasDW : Bool) (resetPin : String) : MG Unit :=
  MG.lift (PartOne.reset hasDW resetPin)

/-- Go `powerUp` of `radio.go`: constant power-up frame, then the five
template-mutating property writes. -/
def powerUp : MG Unit :=
  MG.bind (MG.lift (sendCommand cmdPowerUpFrame)) fun _ =>
    MG.bind (setProperty PROP_REFCLK_FREQ 32768) fun _ =>
      MG.bind (setProperty PROP_TX_PREEMPHASIS 0) fun _ =>
        MG.bind (setProperty PROP_TX_ACOMP_ENABLE 0x02) fun _ =>
          MG.bind (setProperty PROP_TX_ACOMP_GAIN 10) fun _ =>
            setProperty PROP_TX_ACOMP_ENABLE 0x02

/-- Go `begin` of `radio.go`. -/
def begin (hasDW : Bool) (resetPin : String) : MG Bool :=
  MG.bind (reset hasDW resetPin) fun _ =>
    MG.bind powerUp fun _ =>
      MG.bind getRev fun status => MG.pure (status = 13)

/-- Slot loop of `radio.go`'s `SetRDSStation`: mutates bytes 1..5 of the
shared `cmdSetRDSStationName` template each iteration. -/
def rdsStationLoop (name : List Nat) (slots i j : Nat) : MG Unit :=
  if _ : i < slots then
    MG.bind
      (sendTempl
        (fun ts =>
          { ts with
            rdsPS :=
              ((((ts.rdsPS.set 1 i).set 2 (name.getD j 0)).set 3
                (name.getD (j + 1) 0)).set 4 (name.getD (j + 2) 0)).set 5
                (name.getD (j + 3) 0) })
        (fun ts => ts.rdsPS))
      fun _ => rdsStationLoop name slots (i + 1) (j + 4)
  else MG.pure ()
termination_by slots - i

/-- Go `SetRDSStation` of `radio.go`. -/
def SetRDSStation (stationName : List Nat) : MG Unit :=
  rdsStationLoop (padTo4 stationName) ((stationName.length + 3) / 4 % 2 ^ 8) 0 0

/-- Slot loop of `radio.go`'s `SetRDSMessage`: mutates all eight bytes of
the shared `cmdSetRDSMessage` template each iteration. -/
def rdsMessageLoop (msg : List Nat) (slots i j : Nat) : MG Unit :=
  if _ : i < slots then
    MG.bind
      (sendTempl
        (fun ts =>
          { ts with
            rdsBuff :=
              (((((((ts.rdsBuff.set 0 CMD_TX_RDS_BUFF).set 1
                (if i = 0 then 0x06 else 0x04)).set 2 0x20).set 3 i).set 4
                (msg.getD j 0)).set 5 (msg.getD (j + 1) 0)).set 6
                (msg.getD (j + 2) 0)).set 7 (msg.getD (j + 3) 0) })
        (fun ts => ts.rdsBuff))
      fun _ => rdsMessageLoop msg slots (i + 1) (j + 4)
  else MG.pure ()
termination_by slots - i

/-- Go `setRDSTime` of `radio.go`: overwrites all eight bytes of the shared
`cmdSetRDSMessage` template with the fixed RTC payload and sends it. -/
def setRDSTime : MG Unit :=
  sendTempl
    (fun ts =>
      { ts with
        rdsBuff :=
          (((((((ts.rdsBuff.set 0 CMD_TX_RDS_BUFF).set 1 0x84).set 2 0x40).set 3
            0x01).set 4 0xA7).set 5 0x0B).set 6 0x2D).set 7 0x6C })
    (fun ts => ts.rdsBuff)

/-- Go `SetRDSMessage` of `radio.go`. -/
def SetRDSMessage (message : List Nat) : MG Unit :=
  MG.bind (rdsMessageLoop (padTo4 message) ((message.length + 3) / 4 % 2 ^ 8) 0 0)
    fun _ =>
      MG.bind setRDSTime fun _ => setProperty PROP_TX_COMPONENT_ENABLE 0x0007

/-- Go `beginRDS` of `radio.go`. -/
def beginRDS (programID alternateFrequency : Nat) : MG Unit :=
  MG.bind (setProperty PROP_TX_AUDIO_DEVIATION 6625) fun _ =>
    MG.bind (setProperty PROP_TX_RDS_DEVIATION 200) fun _ =>
      MG.bind (setProperty PROP_TX_RDS_INTERRUPT_SOURCE 0x0001) fun _ =>
        MG.bind (setProperty PROP_TX_RDS_PI programID) fun _ =>
          MG.bind (setProperty PROP_TX_RDS_PS_MIX 0x03) fun _ =>
            MG.bind (setProperty PROP_TX_RDS_PS_MISC 0x1808) fun _ =>
              MG.bind (setProperty PROP_TX_RDS_PS_REPEAT_COUNT 3) fun _ =>
                MG.bind (setProperty PROP_TX_RDS_MESSAGE_COUNT 1) fun _ =>
                  MG.bind (setProperty PROP_TX_RDS_PS_AF alternateFrequency) fun _ =>
                    MG.bind (setProperty PROP_TX_RDS_FIFO_SIZE 0) fun _ =>
                      setProperty PROP_TX_COMPONENT_ENABLE 0x0007

/-- Go `EnableRDS` of `radio.go`. -/
def EnableRDS (c : Si4713Config) : MG Unit :=
  MG.bind (beginRDS c.RDSProgramID c.AlternateFrequency) fun _ =>
    MG.bind (SetRDSStation c.RDSStationName) fun _ => SetRDSMessage c.RDSMessage

/-- Scan loop of `radio.go`'s `scanFrequencies`. -/
def scanLoop (f : Nat) : MG Unit :=
  if _ : f < 10800 then
    MG.bind (readTuneMeasure f) fun _ =>
      MG.bind readTuneStatus fun _ => scanLoop (f + 10)
  else MG.pure ()
termination_by 10800 - f

/-- Go `scanFrequencies` of `radio.go`. -/
def scanFrequencies : MG Unit := scanLoop 7600

/-- Go `scanTransmitFrequency` of `radio.go`. -/
def scanTransmitFrequency (transmitFrequency : Nat) : MG Unit :=
  MG.bind (readTuneMeasure transmitFrequency) fun _ =>
    MG.bind readTuneStatus fun _ => MG.pure ()

/-- Go `Loop` of `radio.go`. -/
def Loop (c : Si4713Config) : MG Unit :=
  if c.DebugMode = false then MG.pure ()
  else
    MG.bind readASQ fun _ =>
      MG.bind (SetGPIOPin (2 ^ 1)) fun _ =>
        MG.bind (SetGPIOPin (2 ^ 2)) fun _ => deviceStatus

/-- Go `Start` of `radio.go`: inline frequency checks (note the lower bound
7600, not 8750), then the same sequence as `part_001`'s `Start`. -/
def Start (c : Si4713Config) (hasDW : Bool) : MG Unit :=
  if c.TransmitFrequency = 0 then
    MG.fail (.configErr "FM transmission frequency not set. Use SetConfig() to prevent this in the future")
  else if c.TransmitFrequency < 7600 ∨ 10800 < c.TransmitFrequency then
    MG.fail (.configErr "FM transmission frequency not in 87.50 MHz ... 108 MHz bounds. Use SetConfig() to prevent this in the future")
  else
    MG.bind (MG.lift busGetConn) fun _ =>
      MG.bind (begin hasDW c.ResetPin) fun begun =>
        if begun = false then MG.fail .notFound
        else
          MG.bind (if c.WithFrequencyScan then scanFrequencies else MG.pure ()) fun _ =>
            if c.StopAfterFrequencyScan then MG.fail .forcedStop
            else
              MG.bind
                (if c.WithFrequencyScan then scanTransmitFrequency c.TransmitFrequency
                  else MG.pure ()) fun _ =>
                MG.bind (setTxPower c.TransmitPower 0) fun _ =>
                  MG.bind (tuneFM c.TransmitFrequency) fun _ =>
                    MG.bind readTuneStatus fun _ =>
                      MG.bind (if c.HasRDS then EnableRDS c else MG.pure ()) fun _ =>
                        setGPIOCtrl (2 ^ 1 ||| 2 ^ 2)

end RadioGo

/-! Simulation lemmas: each `radio.go` operation is observably equal to its
`part_001` counterpart and preserves the template invariant. -/

theorem setProperty_sim (p v : Nat) :
    Sim (RadioGo.setProperty p v) (PartOne.setProperty p v) := by
  unfold RadioGo.setProperty PartOne.setProperty
  refine sendTempl_sim ?_
  intro ts hinv
  obtain ⟨i1, i2, i3, ⟨a, b, c, d, h4⟩, i5, i6, i7, i8⟩ := hinv
  constructor
  · simp [h4, List.set, cmdSetPropertyFrame]
  · exact ⟨i1, i2, i3,
      ⟨p / 2 ^ 8 % 2 ^ 8, p % 2 ^ 8, v / 2 ^ 8 % 2 ^ 8, v % 2 ^ 8,
        by simp [h4, List.set]⟩, i5, i6, i7, i8⟩

theorem setTxPower_sim (pwr antCap : Nat) :
    Sim (RadioGo.setTxPower pwr antCap) (PartOne.setTxPower pwr antCap) := by
  unfold RadioGo.setTxPower PartOne.setTxPower
  refine sendTempl_sim ?_
  intro ts hinv
  obtain ⟨i1, i2, ⟨a, b, h3⟩, i4, i5, i6, i7, i8⟩ := hinv
  constructor
  · simp [h3, List.set, cmdSetTxPowerFrame]
  · exact ⟨i1, i2, ⟨pwr, antCap, by simp [h3, List.set]⟩, i4, i5, i6, i7, i8⟩

theorem SetGPIO_sim (pin : Nat) :
    Sim (RadioGo.SetGPIOPin pin) (PartOne.SetGPIOPin pin) := by
  unfold RadioGo.SetGPIOPin PartOne.SetGPIOPin
  refine sendTempl_sim ?_
  intro ts hinv
  obtain ⟨i1, i2, i3, i4, i5, i6, i7, ⟨a, h8⟩⟩ := hinv
  constructor
  · simp [h8, List.set, cmdSetGPIOFrame]
  · exact ⟨i1, i2, i3, i4, i5, i6, i7, ⟨pin, by simp [h8, List.set]⟩⟩

theorem setGPIOCtrl_sim (pin : Nat) :
    Sim (RadioGo.setGPIOCtrl pin) (PartOne.setGPIOCtrl pin) := by
  unfold RadioGo.setGPIOCtrl PartOne.setGPIOCtrl
  refine sendTempl_sim ?_
  intro ts hinv
  obtain ⟨i1, i2, i3, i4, i5, i6, ⟨a, h7⟩, i8⟩ := hinv
  constructor
  · simp [h7, List.set, cmdSetGPIOCtrlFrame]
  · exact ⟨i1, i2, i3, i4, i5, i6, ⟨pin, by simp [h7, List.set]⟩, i8⟩

theorem tuneFM_sim (freq : Nat) :
    Sim (RadioGo.tuneFM freq) (PartOne.tuneFM freq) := by
  unfold RadioGo.tuneFM PartOne.tuneFM
  simp only [bind_eq]
  refine Sim.bind (sendTempl_sim ?_) fun _ => Sim.lift _
  intro ts hinv
  obtain ⟨⟨a, b, h1⟩, i2, i3, i4, i5, i6, i7, i8⟩ := hinv
  constructor
  · simp [h1, List.set, cmdTuneFMFrame]
  · exact ⟨⟨freq / 2 ^ 8 % 2 ^ 8, freq % 2 ^ 8, by simp [h1, List.set]⟩,
      i2, i3, i4, i5, i6, i7, i8⟩

theorem readTuneMeasure_sim (freq : Nat) :
    Sim (RadioGo.readTuneMeasure freq) (PartOne.readTuneMeasure freq) := by
  unfold RadioGo.readTuneMeasure PartOne.readTuneMeasure
  simp only [bind_eq]
  refine Sim.bind (sendTempl_sim ?_) fun _ => Sim.lift _
  intro ts hinv
  obtain ⟨i1, ⟨a, b, h2⟩, i3, i4, i5, i6, i7, i8⟩ := hinv
  constructor
  · simp [h2, List.set, cmdTuneMeasureFrame]
  · exact ⟨i1,
      ⟨(if freq % 5 ≠ 0 then freq - freq % 5 else freq) / 2 ^ 8 % 2 ^ 8,
        (if freq % 5 ≠ 0 then freq - freq % 5 else freq) % 2 ^ 8,
        by simp [h2, List.set]⟩, i3, i4, i5, i6, i7, i8⟩

theorem powerDown_sim : Sim RadioGo.powerDown PartOne.powerDown :=
  Sim.lift _

theorem Halt_sim : Sim RadioGo.Halt PartOne.Halt := Sim.lift _

theorem getRev_sim : Sim RadioGo.getRev PartOne.getRev := Sim.lift _

theorem readTuneStatus_sim : Sim RadioGo.readTuneStatus PartOne.readTuneStatus :=
  Sim.lift _

theorem readASQ_sim : Sim RadioGo.readASQ PartOne.readASQ := Sim.lift _

theorem deviceStatus_sim : Sim RadioGo.deviceStatus PartOne.deviceStatus :=
  Sim.lift _

theorem reset_sim (hasDW : Bool) (resetPin : String) :
    Sim (RadioGo.reset hasDW resetPin) (PartOne.reset hasDW resetPin) :=
  Sim.lift _

theorem powerUp_sim : Sim RadioGo.powerUp PartOne.powerUp := by
  unfold RadioGo.powerUp PartOne.powerUp
  simp only [bind_eq]
  exact Sim.bind (Sim.lift _) fun _ =>
    Sim.bind (setProperty_sim _ _) fun _ =>
      Sim.bind (setProperty_sim _ _) fun _ =>
        Sim.bind (setProperty_sim _ _) fun _ =>
          Sim.bind (setProperty_sim _ _) fun _ => setProperty_sim _ _

theorem begin_sim (hasDW : Bool) (resetPin : String) :
    Sim (RadioGo.begin hasDW resetPin) (PartOne.begin hasDW resetPin) := by
  unfold RadioGo.begin PartOne.begin
  simp only [bind_eq, pure_eq]
  exact Sim.bind (reset_sim hasDW resetPin) fun _ =>
    Sim.bind powerUp_sim fun _ =>
      Sim.bind getRev_sim fun status => Sim.pureSim _

theorem rdsStationLoop_sim (name : List Nat) (slots : Nat) :
    ∀ n i j, slots - i ≤ n →
      Sim (RadioGo.rdsStationLoop name slots i j)
        (PartOne.rdsStationLoop name slots i j) := by
  intro n
  induction n with
  | zero =>
    intro i j hn
    have hge : ¬i < slots := by omega
    rw [RadioGo.rdsStationLoop, PartOne.rdsStationLoop]
    simp only [dif_neg hge]
    exact Sim.pureSim ()
  | succ n ih =>
    intro i j hn
    rw [RadioGo.rdsStationLoop, PartOne.rdsStationLoop]
    by_cases hlt : i < slots
    · simp only [dif_pos hlt, bind_eq]
      refine Sim.bind (sendTempl_sim ?_) fun _ => ih (i + 1) (j + 4) (by omega)
      intro ts hinv
      obtain ⟨i1, i2, i3, i4, ⟨a, b, c, d, e, h5⟩, i6, i7, i8⟩ := hinv
      constructor
      · simp [h5, List.set, cmdSetRDSStationNameFrame]
      · exact ⟨i1, i2, i3, i4,
          ⟨i, name.getD j 0, name.getD (j + 1) 0, name.getD (j + 2) 0,
            name.getD (j + 3) 0, by simp [h5, List.set]⟩, i6, i7, i8⟩
    · simp only [dif_neg hlt]
      exact Sim.pureSim ()

theorem SetRDSStation_sim (stationName : List Nat) :
    Sim (RadioGo.SetRDSStation stationName) (PartOne.SetRDSStation stationName) := by
  unfold RadioGo.SetRDSStation PartOne.SetRDSStation
  exact rdsStationLoop_sim _ _ ((stationName.length + 3) / 4 % 2 ^ 8) 0 0 (by omega)

theorem rdsMessageLoop_sim (msg : List Nat) (slots : Nat) :
    ∀ n i j, slots - i ≤ n →
      Sim (RadioGo.rdsMessageLoop msg slots i j)
        (PartOne.rdsMessageLoop msg slots i j) := by
  intro n
  induction n with
  | zero =>
    intro i j hn
    have hge : ¬i < slots := by omega
    rw [RadioGo.rdsMessageLoop, PartOne.rdsMessageLoop]
    simp only [dif_neg hge]
    exact Sim.pureSim ()
  | succ n ih =>
    intro i j hn
    rw [RadioGo.rdsMessageLoop, PartOne.rdsMessageLoop]
    by_cases hlt : i < slots
    · simp only [dif_pos hlt, bind_eq]
      refine Sim.bind (sendTempl_sim ?_) fun _ => ih (i + 1) (j + 4) (by omega)
      intro ts hinv
      obtain ⟨i1, i2, i3, i4, i5, ⟨a, b, c, d, e, f, g, h2, h6⟩, i7, i8⟩ := hinv
      constructor
      · simp [h6, List.set, cmdSetRDSMessageFrame]
      · exact ⟨i1, i2, i3, i4, i5,
          ⟨CMD_TX_RDS_BUFF, if i = 0 then 0x06 else 0x04, 0x20, i, msg.getD j 0,
            msg.getD (j + 1) 0, msg.getD (j + 2) 0, msg.getD (j + 3) 0,
            by simp [h6, List.set]⟩, i7, i8⟩
    · simp only [dif_neg hlt]
      exact Sim.pureSim ()

theorem setRDSTime_sim : Sim RadioGo.setRDSTime PartOne.setRDSTime := by
  unfold RadioGo.setRDSTime PartOne.setRDSTime
  refine sendTempl_sim ?_
  intro ts hinv
  obtain ⟨i1, i2, i3, i4, i5, ⟨a, b, c, d, e, f, g, h2, h6⟩, i7, i8⟩ := hinv
  constructor
  · simp [h6, List.set, cmdSetRDSMessageFrame]
  · exact ⟨i1, i2, i3, i4, i5,
      ⟨CMD_TX_RDS_BUFF, 0x84, 0x40, 0x01, 0xA7, 0x0B, 0x2D, 0x6C,
        by simp [h6, List.set]⟩, i7, i8⟩

theorem SetRDSMessage_sim (message : List Nat) :
    Sim (RadioGo.SetRDSMessage message) (PartOne.SetRDSMessage message) := by
  unfold RadioGo.SetRDSMessage PartOne.SetRDSMessage
  simp only [bind_eq]
  exact Sim.bind
    (rdsMessageLoop_sim _ _ ((message.length + 3) / 4 % 2 ^ 8) 0 0 (by omega))
    fun _ => Sim.bind setRDSTime_sim fun _ => setProperty_sim _ _

theorem beginRDS_sim (programID alternateFrequency : Nat) :
    Sim (RadioGo.beginRDS programID alternateFrequency)
      (PartOne.beginRDS programID alternateFrequency) := by
  unfold RadioGo.beginRDS PartOne.beginRDS
  simp only [bind_eq]
  exact Sim.bind (setProperty_sim _ _) fun _ =>
    Sim.bind (setProperty_sim _ _) fun _ =>
      Sim.bind (setProperty_sim _ _) fun _ =>
        Sim.bind (setProperty_sim _ _) fun _ =>
          Sim.bind (setProperty_sim _ _) fun _ =>
            Sim.bind (setProperty_sim _ _) fun _ =>
              Sim.bind (setProperty_sim _ _) fun _ =>
                Sim.bind (setProperty_sim _ _) fun _ =>
                  Sim.bind (setProperty_sim _ _) fun _ =>
                    Sim.bind (setProperty_sim _ _) fun _ => setProperty_sim _ _

theorem EnableRDS_sim (c : Si4713Config) :
    Sim (RadioGo.EnableRDS c) (PartOne.EnableRDS c) := by
  unfold RadioGo.EnableRDS PartOne.EnableRDS
  simp only [bind_eq]
  exact Sim.bind (beginRDS_sim _ _) fun _ =>
    Sim.bind (SetRDSStation_sim _) fun _ => SetRDSMessage_sim _

theorem scanLoop_sim :
    ∀ n f, 10800 - f ≤ n → Sim (RadioGo.scanLoop f) (PartOne.scanLoop f) := by
  intro n
  induction n with
  | zero =>
    intro f hn
    have hge : ¬f < 10800 := by omega
    rw [RadioGo.scanLoop, PartOne.scanLoop]
    simp only [dif_neg hge]
    exact Sim.pureSim ()
  | succ n ih =>
    intro f hn
    rw [RadioGo.scanLoop, PartOne.scanLoop]
    by_cases hlt : f < 10800
    · simp only [dif_pos hlt, bind_eq]
      exact Sim.bind (readTuneMeasure_sim f) fun _ =>
        Sim.bind readTuneStatus_sim fun _ => ih (f + 10) (by omega)
    · simp only [dif_neg hlt]
      exact Sim.pureSim ()

theorem scanFrequencies_sim :
    Sim RadioGo.scanFrequencies PartOne.scanFrequencies := by
  unfold RadioGo.scanFrequencies PartOne.scanFrequencies
  exact scanLoop_sim 3200 7600 (by omega)

theorem scanTransmitFrequency_sim (transmitFrequency : Nat) :
    Sim (RadioGo.scanTransmitFrequency transmitFrequency)
      (PartOne.scanTransmitFrequency transmitFrequency) := by
  unfold RadioGo.scanTransmitFrequency PartOne.scanTransmitFrequency
  simp only [bind_eq, pure_eq]
  exact Sim.bind (readTuneMeasure_sim _) fun _ =>
    Sim.bind readTuneStatus_sim fun _ => Sim.pureSim ()

theorem Loop_sim (c : Si4713Config) : Sim (RadioGo.Loop c) (PartOne.Loop c) := by
  unfold RadioGo.Loop PartOne.Loop
  simp only [bind_eq, pure_eq]
  refine Sim.ite _ (fun _ => Sim.pureSim ()) fun _ => ?_
  exact Sim.bind readASQ_sim fun _ =>
    Sim.bind (SetGPIO_sim _) fun _ =>
      Sim.bind (SetGPIO_sim _) fun _ => deviceStatus_sim

theorem Start_sim (c : Si4713Config) (hasDW : Bool)
    (h1 : 8750 ≤ c.TransmitFrequency) (h2 : c.TransmitFrequency ≤ 10800)
    (hval : Validate c = .valid c) :
    Sim (RadioGo.Start c hasDW) (PartOne.Start c hasDW) := by
  unfold RadioGo.Start PartOne.Start
  rw [hval]
  rw [if_neg (by omega : ¬c.TransmitFrequency = 0),
    if_neg (by omega : ¬(c.TransmitFrequency < 7600 ∨ 10800 < c.TransmitFrequency))]
  simp only [bind_eq, pure_eq]
  refine Sim.bind (Sim.lift _) fun _ => ?_
  refine Sim.bind (begin_sim hasDW c.ResetPin) fun begun => ?_
  refine Sim.ite _ (fun _ => Sim.fail _) fun _ => ?_
  refine Sim.bind (Sim.ite _ (fun _ => scanFrequencies_sim) fun _ => Sim.pureSim ())
    fun _ => ?_
  refine Sim.ite _ (fun _ => Sim.fail _) fun _ => ?_
  refine Sim.bind
    (Sim.ite _ (fun _ => scanTransmitFrequency_sim _) fun _ => Sim.pureSim ())
    fun _ => ?_
  refine Sim.bind (setTxPower_sim _ _) fun _ => ?_
  refine Sim.bind (tuneFM_sim _) fun _ => ?_
  refine Sim.bind readTuneStatus_sim fun _ => ?_
  refine Sim.bind (Sim.ite _ (fun _ => EnableRDS_sim c) fun _ => Sim.pureSim ())
    fun _ => ?_
  exact setGPIOCtrl_sim _

/-- A configuration all of whose fields already satisfy the normalized
bounds is a fixed point of `Validate`. -/
theorem Validate_of_props (c : Si4713Config) (hlog : c.hasLog = true)
    (hnd : ¬(c.DebugMode = true ∧ c.hasDebugLog = false)) (hrp : c.ResetPin ≠ "")
    (hf1 : 8750 ≤ c.TransmitFrequency) (hf2 : c.TransmitFrequency ≤ 10800)
    (ha1 : 8750 ≤ c.AlternateFrequency) (ha2 : c.AlternateFrequency ≤ 10800)
    (hp1 : 88 ≤ c.TransmitPower) (hp2 : c.TransmitPower ≤ 115)
    (hpi : 1 ≤ c.RDSProgramID) : Validate c = .valid c := by
  have e1 : ¬c.TransmitFrequency = 0 := by omega
  have e2 : ¬(c.TransmitFrequency < 8750 ∨ 10800 < c.TransmitFrequency) := by omega
  have e3 : ¬(c.AlternateFrequency < 8750 ∨ 10800 < c.AlternateFrequency) := by omega
  have e4 : ¬c.TransmitPower < 88 := by omega
  have e5 : ¬115 < c.TransmitPower := by omega
  have e6 : ¬c.RDSProgramID < 1 := by omega
  simp only [Validate, hlog, hnd, hrp, e1, e2, e3, e4, e5, e6, if_false,
    Bool.true_eq_false, ite_false]

set_option maxHeartbeats 3200000 in
/-- Every configuration that `Validate` accepts satisfies the normalized
bounds (so, with the previous lemma, validation is idempotent). -/
theorem Validate_props (cfg c : Si4713Config) (h : Validate cfg = .valid c) :
    c.hasLog = true ∧ ¬(c.DebugMode = true ∧ c.hasDebugLog = false) ∧
      c.ResetPin ≠ "" ∧ 8750 ≤ c.TransmitFrequency ∧ c.TransmitFrequency ≤ 10800 ∧
      8750 ≤ c.AlternateFrequency ∧ c.AlternateFrequency ≤ 10800 ∧
      88 ≤ c.TransmitPower ∧ c.TransmitPower ≤ 115 ∧ 1 ≤ c.RDSProgramID := by
  by_cases hL : cfg.hasLog = false <;>
    by_cases hD : cfg.DebugMode = true ∧ cfg.hasDebugLog = false <;>
      by_cases hR : cfg.ResetPin = "" <;>
        by_cases hF0 : cfg.TransmitFrequency = 0 <;>
          by_cases hFb : cfg.TransmitFrequency < 8750 ∨ 10800 < cfg.TransmitFrequency <;>
            by_cases hAf : cfg.AlternateFrequency < 8750 ∨ 10800 < cfg.AlternateFrequency <;>
              by_cases hP1 : cfg.TransmitPower < 88 <;>
                by_cases hP2 : 115 < cfg.TransmitPower <;>
                  by_cases hPi : cfg.RDSProgramID < 1 <;>
                    simp [Validate, hL, hD, hR, hF0, hFb, hAf, hP1, hP2, hPi] at h <;>
                      (subst h
                       refine ⟨?_, ?_, ?_, ?_, ?_, ?_, ?_, ?_, ?_, ?_⟩ <;>
                         simp_all <;> omega)

/-- C10: the two driver implementations are observationally equivalent.
For every validated configuration (any `Validate` output), every template
state reachable by the mutable-template driver (any state satisfying the
shape invariant, which the initial templates satisfy and every operation
preserves), and every transport-response script, each externally visible
operation — `Start`, `Halt`, `Loop`, `SetGPIO`, `SetRDSStation`,
`SetRDSMessage`, `EnableRDS` — of the `radio.go` driver issues the
identical bus-request sequence (hence writes identical byte frames),
consumes the same responses, and returns the same result as the `part_001`
driver. -/
theorem C10_implementations_observationally_equivalent
    (cfg c : Si4713Config) (hasDW : Bool) (ts : Templates) (s : List Resp)
    (hv : Validate cfg = .valid c) (hts : TemplInv ts) :
    stripT (RadioGo.Start c hasDW ts s) = PartOne.Start c hasDW s ∧
      stripT (RadioGo.Halt ts s) = PartOne.Halt s ∧
      stripT (RadioGo.Loop c ts s) = PartOne.Loop c s ∧
      (∀ pin, stripT (RadioGo.SetGPIOPin pin ts s) = PartOne.SetGPIOPin pin s) ∧
      (∀ nm, stripT (RadioGo.SetRDSStation nm ts s) = PartOne.SetRDSStation nm s) ∧
      (∀ m, stripT (RadioGo.SetRDSMessage m ts s) = PartOne.SetRDSMessage m s) ∧
      stripT (RadioGo.EnableRDS c ts s) = PartOne.EnableRDS c s := by
  obtain ⟨p1, p2, p3, p4, p5, p6, p7, p8, p9, p10⟩ := Validate_props cfg c hv
  have hvc : Validate c = .valid c :=
    Validate_of_props c p1 p2 p3 p4 p5 p6 p7 p8 p9 p10
  exact ⟨(Start_sim c hasDW p4 p5 hvc ts s hts).1,
    (Halt_sim ts s hts).1,
    (Loop_sim c ts s hts).1,
    fun pin => (SetGPIO_sim pin ts s hts).1,
    fun nm => (SetRDSStation_sim nm ts s hts).1,
    fun m => (SetRDSMessage_sim m ts s hts).1,
    (EnableRDS_sim c ts s hts).1⟩

/-- A concrete already-normalized configuration for the C10 witness. -/
def cfgEquiv : Si4713Config :=
  { DebugMode := false
    hasDebugLog := false
    hasLog := true
    AlternateFrequency := 8750
    HasRDS := true
    RDSProgramID := 0x3104
    RDSMessage := [72, 101, 108, 108, 111]
    ResetPin := "29"
    RDSStationName := [84, 101, 115, 116]
    StopAfterFrequencyScan := false
    TransmitFrequency := 9550
    TransmitPower := 115
    WithFrequencyScan := false }

/-- C10 witness: the equivalence at a concrete validated configuration, the
initial template state, and the empty script. -/
theorem C10_witness :
    stripT (RadioGo.Start cfgEquiv false Templates.init []) =
        PartOne.Start cfgEquiv false [] ∧
      stripT (RadioGo.Halt Templates.init []) = PartOne.Halt [] ∧
      stripT (RadioGo.Loop cfgEquiv Templates.init []) = PartOne.Loop cfgEquiv [] ∧
      (∀ pin, stripT (RadioGo.SetGPIOPin pin Templates.init []) = PartOne.SetGPIOPin pin []) ∧
      (∀ nm, stripT (RadioGo.SetRDSStation nm Templates.init []) =
        PartOne.SetRDSStation nm []) ∧
      (∀ m, stripT (RadioGo.SetRDSMessage m Templates.init []) =
        PartOne.SetRDSMessage m []) ∧
      stripT (RadioGo.EnableRDS cfgEquiv Templates.init []) =
        PartOne.EnableRDS cfgEquiv [] :=
  C10_implementations_observationally_equivalent cfgEquiv cfgEquiv false
    Templates.init [] (by rfl) TemplInv_init

end Si4713
